import Mathlib

/-!
Shallow embedding of the SnapCopy single-page application (src/src/App.tsx)
and verification of its specification claims.

The application state, the generation-cycle handler `handleGenerateCopy`,
the copy-to-clipboard control, and the trigger-button condition are
translated from the source. External collaborators (the two model
endpoints and the JSON parsing builtin of the platform) are modelled as an
environment record: each endpoint either throws a JS error or returns a
response value, and JSON parsing either throws or yields a JS value.
-/

namespace SnapCopy

/-- A JavaScript runtime value, as far as the application observes it:
the parsed JSON response and the React state fields can hold strings,
arrays, objects, numbers, booleans, null, or undefined. -/
inductive JsVal where
  | undefined
  | null
  | bool (b : Bool)
  | num (n : Int)
  | str (s : String)
  | arr (elems : List JsVal)
  | obj (fields : List (String × JsVal))

/-- A thrown JavaScript error; `message` may be undefined. -/
structure JsError where
  message : Option String

/-- The TypeError thrown by property access on a null or undefined base.
The exact message text varies between engines; the embedding fixes one
concrete text per base kind and accessed name. -/
def typeError (base k : String) : JsError :=
  { message := some ("Cannot read properties of " ++ base ++ " (reading " ++ k ++ ")") }

/-- Member lookup on a base that is not null and not undefined: the object
member when present; undefined when the member is absent or the base is a
primitive (strings, numbers and booleans have no own members with any of
the names accessed here). -/
def JsVal.member (v : JsVal) (k : String) : JsVal :=
  match v with
  | .obj fields =>
    match fields.find? (fun p => p.1 == k) with
    | some p => p.2
    | none => .undefined
  | _ => .undefined

/-- JavaScript property access `v[k]` as used on the parsed JSON response:
throws a TypeError when the base is null or undefined; otherwise yields
the member lookup. -/
def JsVal.getProp (v : JsVal) (k : String) : Except JsError JsVal :=
  match v with
  | .undefined => .error (typeError "undefined" k)
  | .null => .error (typeError "null" k)
  | _ => .ok (v.member k)

/-- JavaScript truthiness, which the markup uses to decide whether a
result panel is rendered. -/
def JsVal.truthy : JsVal → Bool
  | .undefined => false
  | .null => false
  | .bool b => b
  | .num n => n != 0
  | .str s => !s.isEmpty
  | .arr _ => true
  | .obj _ => true

/-- The notion of a non-empty keywords field used to state the atomicity
claim: the state holds a non-empty keyword array. (This is a claim-side
predicate; the markup's own guard `keywords.length > 0` is embedded
separately as `keywordsLengthGuard`, since it throws on an undefined or
null keywords state.) -/
def keywordsNonEmpty : JsVal → Bool
  | .arr l => !l.isEmpty
  | _ => false

/-- The keywords clause `keywords.length > 0` of the SEO column render
guard: throws a TypeError when the keywords state is undefined or null;
for an array or string the length is its length; a number or boolean has
an undefined length member and the comparison is false; for an object a
numeric length member is compared and any other member compares false. -/
def keywordsLengthGuard : JsVal → Except JsError Bool
  | .undefined => .error (typeError "undefined" "length")
  | .null => .error (typeError "null" "length")
  | .str s => .ok (decide (0 < s.length))
  | .arr l => .ok (decide (0 < l.length))
  | .bool _ => .ok false
  | .num _ => .ok false
  | .obj fields =>
    match (JsVal.obj fields).member "length" with
    | .num n => .ok (decide (0 < n))
    | _ => .ok false

/-- JavaScript `x || d` for a possibly undefined string `x`: the default is
taken when `x` is undefined, null, or the empty string (all falsy). -/
def jsOr (x : Option String) (d : String) : String :=
  match x with
  | some s => if s.isEmpty then d else s
  | none => d

/-- JavaScript template-literal interpolation of a possibly undefined
string: undefined stringifies to the text "undefined". -/
def jsInterp (x : Option String) : String :=
  match x with
  | some s => s
  | none => "undefined"

/-- A JavaScript whitespace character, as stripped by
`String.prototype.trim`: the ASCII whitespace characters, the line and
paragraph separators, the byte-order mark, and the Unicode
space-separator category (NBSP, OGHAM space, the en/em family, the
narrow, medium and ideographic spaces). -/
def isJsWhitespace (c : Char) : Bool :=
  c = ' ' || c = '\t' || c = '\n' || c = '\r' || c = '\x0b' || c = '\x0c' ||
  c = '\u00A0' || c = '\uFEFF' || c = '\u2028' || c = '\u2029' ||
  c = '\u1680' || ('\u2000' ≤ c && c ≤ '\u200A') ||
  c = '\u202F' || c = '\u205F' || c = '\u3000'

/-- JavaScript `s.trim()`: strips whitespace from both ends. -/
def jsTrim (s : String) : String :=
  String.mk (((s.data.dropWhile isJsWhitespace).reverse.dropWhile isJsWhitespace).reverse)

/-- JavaScript single-character `String.prototype.split`, on the character
list of the string: splitting the empty string gives one empty chunk, and
every separator occurrence starts a new chunk. -/
def jsSplitChars (sep : Char) : List Char → List (List Char)
  | [] => [[]]
  | c :: cs =>
    if c = sep then [] :: jsSplitChars sep cs
    else
      match jsSplitChars sep cs with
      | [] => [[c]]
      | t :: ts => (c :: t) :: ts

/-- JavaScript `s.split(sep)` for a single-character separator. -/
def jsSplit (sep : Char) (s : String) : List String :=
  (jsSplitChars sep s.data).map String.mk

/-- The React state of the `App` component: the encoded image, the six
result fields, and the loading flag. Result fields hold arbitrary JS
values because the success branch stores whatever members the parsed JSON
object supplies. -/
structure AppState where
  image : Option String
  title : JsVal
  shortDescription : JsVal
  longDescription : JsVal
  metaTitle : JsVal
  metaDescription : JsVal
  keywords : JsVal
  loading : Bool

/-- The initial component state: no image, empty strings, empty keyword
array, not loading. -/
def initialState : AppState :=
  { image := none
    title := .str ""
    shortDescription := .str ""
    longDescription := .str ""
    metaTitle := .str ""
    metaDescription := .str ""
    keywords := .arr []
    loading := false }

/-- The vision-endpoint response as the handler observes it:
`geminiResponse.text` may be undefined. -/
structure GeminiResponse where
  text : Option String

/-- The text-endpoint response as the handler observes it: `content` is
the optional chain `groqResponse.choices[0]?.message?.content`, undefined
when any link is missing or the content is null. -/
structure GroqResponse where
  content : Option String

/-- The request the handler submits to the vision endpoint: the inline
image data and media type split out of the data URI, plus the fixed
instruction text. -/
structure GeminiRequest where
  data : Option String
  mimeType : Option String
  instruction : String

/-- The environment of one generation cycle: the outcome of each endpoint
call and the behaviour of the JSON parsing builtin (which throws on
invalid input). -/
structure Env where
  geminiResult : Except JsError GeminiResponse
  groqResult : Except JsError GroqResponse
  parseJson : String → Except JsError JsVal

/-- The observable outcome of one invocation of the handler: the final
component state, the alert notifications raised, the vision request
issued (if any), and the prompt sent to the text endpoint (if that call
was made). -/
structure CycleOut where
  state : AppState
  alerts : List String
  geminiRequest : Option GeminiRequest
  groqPrompt : Option String

/-- `image.split(',')[1]`: the base64 payload the handler extracts from
the data URI. -/
def extractBase64 (image : String) : Option String :=
  (jsSplit ',' image).get? 1

/-- `image.split(';')[0].split(':')[1]`: the media type the handler
extracts from the data URI. -/
def extractMimeType (image : String) : Option String :=
  (jsSplit ':' (((jsSplit ';' image).get? 0).getD "")).get? 1

/-- The fixed instruction sent with the image to the vision endpoint. -/
def geminiInstruction : String :=
  "Describe this product image in high detail. Mention all visible features, colors, the style, and the target audience."

/-- The part of the second-stage prompt template before the interpolated
image description. -/
def promptHead : String :=
  "You are an expert e-commerce copywriter and SEO specialist. Analyze the following product description. Generate:\n1. A catchy product title\n2. A 1-2 sentence short description\n3. A detailed long description (2-3 paragraphs separated by \\n\\n)\n4. A SEO Meta Title (max 60 characters)\n5. A SEO Meta Description (max 160 characters)\n6. 5-7 SEO Keywords as an array of strings\n\nProduct Description:\n"

/-- The part of the second-stage prompt template after the interpolated
image description. -/
def promptTail : String :=
  "\n\nReturn the response ONLY in valid JSON format like this: \x7b \"title\": \"...\", \"shortDescription\": \"...\", \"longDescription\": \"...\", \"metaTitle\": \"...\", \"metaDescription\": \"...\", \"keywords\": [\"...\", \"...\"] \x7d"

/-- The prompt for the text endpoint, built by interpolating the image
description into the template literal. -/
def mkPrompt (imageDescription : String) : String :=
  promptHead ++ imageDescription ++ promptTail

/-- The alert shown in the catch branch:
`Failed to generate copy: (message or Unknown error)`. -/
def failAlert (e : JsError) : String :=
  "Failed to generate copy: " ++ jsOr e.message "Unknown error"

/-- The state after the setters at the start of the cycle body: loading
set to true, all six result fields cleared. -/
def startCycleState (s : AppState) : AppState :=
  { s with
    loading := true
    title := .str ""
    shortDescription := .str ""
    longDescription := .str ""
    metaTitle := .str ""
    metaDescription := .str ""
    keywords := .arr [] }

/-- The six property accesses of the success branch, in source order. An
access throws exactly when the parsed value is null or undefined (JSON
parsing never yields undefined), and then the first access already
throws, before any setter argument has been evaluated — so on the
throwing path no field setter has run, which matches React semantics
where setter calls made before a throw would still take effect. -/
def jsonFields (j : JsVal) :
    Except JsError (JsVal × JsVal × JsVal × JsVal × JsVal × JsVal) := do
  let t ← j.getProp "title"
  let sd ← j.getProp "shortDescription"
  let ld ← j.getProp "longDescription"
  let mt ← j.getProp "metaTitle"
  let md ← j.getProp "metaDescription"
  let kw ← j.getProp "keywords"
  pure (t, sd, ld, mt, md, kw)

/-- The try/catch/finally body of the handler after the image guard and
the initial clearing setters: vision call, prompt construction, text
call, JSON parsing, and either the six result setters or the catch-branch
alert (also reached when a property access on the parsed value throws);
the finally branch resets loading in every case. -/
def cycleAfterClear (env : Env) (image : String) (s1 : AppState) : CycleOut :=
  let req : GeminiRequest :=
    { data := extractBase64 image
      mimeType := extractMimeType image
      instruction := geminiInstruction }
  match env.geminiResult with
  | .error e =>
    { state := { s1 with loading := false }
      alerts := [failAlert e]
      geminiRequest := some req
      groqPrompt := none }
  | .ok gr =>
    let prompt := mkPrompt (jsInterp gr.text)
    match env.groqResult with
    | .error e =>
      { state := { s1 with loading := false }
        alerts := [failAlert e]
        geminiRequest := some req
        groqPrompt := some prompt }
    | .ok qr =>
      let textResponse := jsOr qr.content "\x7b\x7d"
      match env.parseJson (jsTrim textResponse) with
      | .error e =>
        { state := { s1 with loading := false }
          alerts := [failAlert e]
          geminiRequest := some req
          groqPrompt := some prompt }
      | .ok j =>
        match jsonFields j with
        | .error e =>
          { state := { s1 with loading := false }
            alerts := [failAlert e]
            geminiRequest := some req
            groqPrompt := some prompt }
        | .ok (t, sd, ld, mtt, md, kw) =>
          { state := { s1 with
              title := t
              shortDescription := sd
              longDescription := ld
              metaTitle := mtt
              metaDescription := md
              keywords := kw
              loading := false }
            alerts := []
            geminiRequest := some req
            groqPrompt := some prompt }

/-- The `handleGenerateCopy` handler: returns immediately when no image
is loaded; otherwise clears the result fields, sets loading, and runs the
two-stage generation body. -/
def handleGenerateCopy (env : Env) (s : AppState) : CycleOut :=
  match s.image with
  | none =>
    { state := s, alerts := [], geminiRequest := none, groqPrompt := none }
  | some image => cycleAfterClear env image (startCycleState s)

/-- The trigger-button condition `disabled = !image || loading` from the
markup. -/
def generateButtonDisabled (s : AppState) : Bool :=
  s.image.isNone || s.loading

/-- The product-copy column render guard
`title || shortDescription || longDescription` from the markup: the
column body renders only when some scalar copy field is truthy. -/
def copyColumnGuard (s : AppState) : Bool :=
  s.title.truthy || s.shortDescription.truthy || s.longDescription.truthy

/-- The SEO column render guard
`metaTitle || metaDescription || keywords.length > 0` from the markup,
with JavaScript short-circuit evaluation: the length clause runs only
when both meta fields are falsy, and it throws when the keywords state is
undefined or null. -/
def seoColumnGuard (s : AppState) : Except JsError Bool :=
  if s.metaTitle.truthy then .ok true
  else if s.metaDescription.truthy then .ok true
  else keywordsLengthGuard s.keywords

/-- The observable effect of one click of a copy control. -/
structure ClipboardEffect where
  clipboard : String
  alerts : List String

/-- The `CopyToClipboard` click handler: writes its `text` prop to the
clipboard and raises the confirmation alert. -/
def handleCopy (text : String) : ClipboardEffect :=
  { clipboard := text, alerts := ["Copied to clipboard!"] }

/-- The text the keywords panel passes to its copy control:
`keywords.join(COMMA SPACE)`. -/
def keywordsCopyText (keywords : List String) : String :=
  String.intercalate ", " keywords

/-- Stated from the claim wording for comparison with the source: the
keyword list joined by a comma. -/
def keywordsJoinedByComma (keywords : List String) : String :=
  String.intercalate "," keywords

/-- The claim C1 success-branch property as stated: all six result fields
non-empty. -/
def allFieldsNonEmpty (s : AppState) : Bool :=
  s.title.truthy && s.shortDescription.truthy && s.longDescription.truthy &&
  s.metaTitle.truthy && s.metaDescription.truthy && keywordsNonEmpty s.keywords

/-- The claim C1 success-branch property as stated: none of the six
result fields non-empty. -/
def noFieldNonEmpty (s : AppState) : Bool :=
  !s.title.truthy && !s.shortDescription.truthy && !s.longDescription.truthy &&
  !s.metaTitle.truthy && !s.metaDescription.truthy && !(keywordsNonEmpty s.keywords)

/-- Substring containment: `sub` occurs verbatim inside `big`. -/
def strContains (big sub : String) : Prop :=
  ∃ pre post, big = pre ++ sub ++ post

/-- A concrete data URI for witnesses. -/
def dataUriExample : String := "data:image/png;base64,AAAA"

/-- The initial state after an image upload. -/
def stateWithImage : AppState :=
  { initialState with image := some dataUriExample }

/-- A concrete successful vision-endpoint response. -/
def geminiOkExample : GeminiResponse :=
  { text := some "red running sneaker with white sole" }

/-- A JSON object text carrying only a title member. -/
def jsonTitleOnlyText : String := "\x7b\"title\":\"x\"\x7d"

/-- An environment where the text endpoint returns a JSON object carrying
only a title member; the JSON parsing builtin behaves as on the real
platform for that text and throws on anything else. -/
def envTitleOnly : Env :=
  { geminiResult := .ok geminiOkExample
    groqResult := .ok { content := some jsonTitleOnlyText }
    parseJson := fun t =>
      if t == jsonTitleOnlyText then .ok (.obj [("title", .str "x")])
      else .error { message := some "Unexpected token" } }

/-- An environment where the text endpoint returns text that is not valid
JSON, so parsing throws. -/
def envParseFailure : Env :=
  { geminiResult := .ok geminiOkExample
    groqResult := .ok { content := some "not json" }
    parseJson := fun _ => .error { message := some "Unexpected token" } }

/-- An environment where the text-endpoint response has no message
content; the JSON parsing builtin accepts the empty-object text (as the
platform does) and throws on anything else. -/
def envEmptyContent : Env :=
  { geminiResult := .ok geminiOkExample
    groqResult := .ok { content := none }
    parseJson := fun t =>
      if t == "\x7b\x7d" then .ok (.obj [])
      else .error { message := some "Unexpected token" } }

/-- Claim C3: in every UI state, the generate button is disabled exactly
when no image has been loaded or a generation cycle is in progress. -/
theorem C3_button_disabled_iff (s : AppState) :
    generateButtonDisabled s = true ↔ (s.image = none ∨ s.loading = true) := by
  cases h : s.image <;> simp [generateButtonDisabled, h]

/-- Claim C4: whenever the cycle passes the image guard, the loading flag
is false when the cycle terminates, in every branch. -/
theorem C4_loading_reset (env : Env) (s : AppState) (img : String)
    (himg : s.image = some img) :
    (handleGenerateCopy env s).state.loading = false := by
  simp only [handleGenerateCopy, himg, cycleAfterClear]
  cases hg : env.geminiResult with
  | error e => simp
  | ok gr =>
    cases hq : env.groqResult with
    | error e => simp
    | ok qr =>
      cases hp : env.parseJson (jsTrim (jsOr qr.content "\x7b\x7d")) with
      | error e => simp [hp]
      | ok j =>
        cases hj : jsonFields j with
        | error e => simp [hp, hj]
        | ok v => simp [hp, hj]

/-- Witness for C4 at a concrete environment and state. -/
theorem C4_witness :
    (handleGenerateCopy envTitleOnly stateWithImage).state.loading = false :=
  C4_loading_reset envTitleOnly stateWithImage dataUriExample rfl

/-- Claim C5: invoking the generate action with no image loaded is a
no-op: state unchanged, no alert, no API request, no prompt. -/
theorem C5_no_image_noop (env : Env) (s : AppState) (h : s.image = none) :
    handleGenerateCopy env s =
      { state := s, alerts := [], geminiRequest := none, groqPrompt := none } := by
  unfold handleGenerateCopy
  rw [h]

/-- Witness for C5 at a concrete environment and the initial state. -/
theorem C5_witness :
    handleGenerateCopy envTitleOnly initialState =
      { state := initialState, alerts := [], geminiRequest := none
        groqPrompt := none } :=
  C5_no_image_noop envTitleOnly initialState rfl

/-- Claim C7: every cycle that passes the image guard first reaches the
cleared state (six fields empty, loading true) and only then runs the API
phase. -/
theorem C7_cycle_start (env : Env) (s : AppState) (img : String)
    (himg : s.image = some img) :
    (startCycleState s).title = .str "" ∧
    (startCycleState s).shortDescription = .str "" ∧
    (startCycleState s).longDescription = .str "" ∧
    (startCycleState s).metaTitle = .str "" ∧
    (startCycleState s).metaDescription = .str "" ∧
    (startCycleState s).keywords = .arr [] ∧
    (startCycleState s).loading = true ∧
    handleGenerateCopy env s = cycleAfterClear env img (startCycleState s) := by
  refine ⟨rfl, rfl, rfl, rfl, rfl, rfl, rfl, ?_⟩
  unfold handleGenerateCopy
  rw [himg]

/-- Witness for C7 at a concrete environment and state. -/
theorem C7_witness :
    (startCycleState stateWithImage).loading = true ∧
    handleGenerateCopy envTitleOnly stateWithImage =
      cycleAfterClear envTitleOnly dataUriExample (startCycleState stateWithImage) := by
  have h := C7_cycle_start envTitleOnly stateWithImage dataUriExample rfl
  exact ⟨h.2.2.2.2.2.2.1, h.2.2.2.2.2.2.2⟩

/-- Claim C8 as stated is false at the keyword list consisting of a and b:
the copy control writes the list joined by a comma followed by a space,
which differs from the list joined by a comma. -/
theorem C8_counterexample :
    (handleCopy (keywordsCopyText ["a", "b"])).clipboard = "a, b" ∧
    keywordsJoinedByComma ["a", "b"] = "a,b" ∧
    ("a, b" : String) ≠ "a,b" := by
  refine ⟨rfl, rfl, ?_⟩
  decide

/-- Claim C8 amended: a copy control writes exactly its text prop to the
clipboard and raises the confirmation notification, and the keywords
panel passes the keyword list joined by a comma followed by a space. -/
theorem C8_amended_copy (t : String) (ks : List String) :
    (handleCopy t).clipboard = t ∧
    (handleCopy t).alerts = ["Copied to clipboard!"] ∧
    (handleCopy (keywordsCopyText ks)).clipboard = String.intercalate ", " ks :=
  ⟨rfl, rfl, rfl⟩

/-- Claim C1 as stated is false: with the text endpoint returning the
JSON object carrying only a non-empty title member, the success branch is
reached (no alert), the title field ends non-empty while the short
description ends undefined, so neither all six fields are non-empty nor
none are. -/
theorem C1_counterexample :
    (handleGenerateCopy envTitleOnly stateWithImage).alerts = [] ∧
    (handleGenerateCopy envTitleOnly stateWithImage).state.title = .str "x" ∧
    (handleGenerateCopy envTitleOnly stateWithImage).state.shortDescription = .undefined ∧
    allFieldsNonEmpty (handleGenerateCopy envTitleOnly stateWithImage).state = false ∧
    noFieldNonEmpty (handleGenerateCopy envTitleOnly stateWithImage).state = false :=
  ⟨rfl, rfl, rfl, rfl, rfl⟩

/-- On a parsed value that is not null and not undefined, the six
property accesses of the success branch all succeed with the member
lookups. -/
theorem jsonFields_ok (j : JsVal) (hn : j ≠ .null) (hu : j ≠ .undefined) :
    jsonFields j = .ok (j.member "title", j.member "shortDescription",
      j.member "longDescription", j.member "metaTitle",
      j.member "metaDescription", j.member "keywords") := by
  cases j with
  | undefined => exact absurd rfl hu
  | null => exact absurd rfl hn
  | bool b => rfl
  | num n => rfl
  | str s => rfl
  | arr l => rfl
  | obj f => rfl

/-- On a null parsed value the first property access already throws. -/
theorem jsonFields_null :
    jsonFields .null = .error (typeError "null" "title") := rfl

/-- Claim C1 amended: the six result fields are only ever assigned
together as one batch. When the parsed JSON value is not null (and not
undefined, which JSON parsing never yields), the success branch sets each
field to the corresponding member of the value, a missing member being
stored as the undefined value, so all six fields are non-empty exactly
when the returned object supplies all six members non-empty — requested
by the prompt but not enforced by the code. When the parsed value is
null, the first property access throws a TypeError and the cycle ends in
the failed state with fields left as cleared and the alert raised; in
both cases loading is reset. -/
theorem C1_amended_success_fields (env : Env) (s : AppState) (img : String)
    (gr : GeminiResponse) (qr : GroqResponse) (j : JsVal)
    (himg : s.image = some img)
    (hg : env.geminiResult = .ok gr)
    (hq : env.groqResult = .ok qr)
    (hp : env.parseJson (jsTrim (jsOr qr.content "\x7b\x7d")) = .ok j) :
    (j ≠ .null → j ≠ .undefined →
      (handleGenerateCopy env s).state.title = j.member "title" ∧
      (handleGenerateCopy env s).state.shortDescription = j.member "shortDescription" ∧
      (handleGenerateCopy env s).state.longDescription = j.member "longDescription" ∧
      (handleGenerateCopy env s).state.metaTitle = j.member "metaTitle" ∧
      (handleGenerateCopy env s).state.metaDescription = j.member "metaDescription" ∧
      (handleGenerateCopy env s).state.keywords = j.member "keywords" ∧
      (handleGenerateCopy env s).state.loading = false ∧
      (handleGenerateCopy env s).alerts = []) ∧
    (j = .null →
      (handleGenerateCopy env s).state.title = .str "" ∧
      (handleGenerateCopy env s).state.shortDescription = .str "" ∧
      (handleGenerateCopy env s).state.longDescription = .str "" ∧
      (handleGenerateCopy env s).state.metaTitle = .str "" ∧
      (handleGenerateCopy env s).state.metaDescription = .str "" ∧
      (handleGenerateCopy env s).state.keywords = .arr [] ∧
      (handleGenerateCopy env s).state.loading = false ∧
      (handleGenerateCopy env s).alerts = [failAlert (typeError "null" "title")]) := by
  constructor
  · intro hn hu
    simp [handleGenerateCopy, himg, cycleAfterClear, startCycleState, hg, hq, hp,
      jsonFields_ok j hn hu]
  · intro hn
    subst hn
    simp [handleGenerateCopy, himg, cycleAfterClear, startCycleState, hg, hq, hp,
      jsonFields_null]

/-- Witness for the amended C1 at a concrete environment, exercising the
non-null case. -/
theorem C1_amended_witness :
    (handleGenerateCopy envTitleOnly stateWithImage).state.title =
      JsVal.member (.obj [("title", .str "x")]) "title" ∧
    (handleGenerateCopy envTitleOnly stateWithImage).alerts = [] := by
  have h := C1_amended_success_fields envTitleOnly stateWithImage dataUriExample
      geminiOkExample { content := some jsonTitleOnlyText }
      (.obj [("title", .str "x")]) rfl rfl rfl rfl
  have h2 := h.1 (fun hx => JsVal.noConfusion hx) (fun hx => JsVal.noConfusion hx)
  exact ⟨h2.1, h2.2.2.2.2.2.2.2⟩

/-- Claim C2: when the text-endpoint response does not parse as JSON, the
cycle ends in the failed state: all six fields stay as cleared at cycle
start, loading is false, and the alert notification is raised. -/
theorem C2_parse_failure_state (env : Env) (s : AppState) (img : String)
    (gr : GeminiResponse) (qr : GroqResponse) (e : JsError)
    (himg : s.image = some img)
    (hg : env.geminiResult = .ok gr)
    (hq : env.groqResult = .ok qr)
    (hp : env.parseJson (jsTrim (jsOr qr.content "\x7b\x7d")) = .error e) :
    (handleGenerateCopy env s).state.title = .str "" ∧
    (handleGenerateCopy env s).state.shortDescription = .str "" ∧
    (handleGenerateCopy env s).state.longDescription = .str "" ∧
    (handleGenerateCopy env s).state.metaTitle = .str "" ∧
    (handleGenerateCopy env s).state.metaDescription = .str "" ∧
    (handleGenerateCopy env s).state.keywords = .arr [] ∧
    (handleGenerateCopy env s).state.loading = false ∧
    (handleGenerateCopy env s).alerts = [failAlert e] := by
  simp [handleGenerateCopy, himg, cycleAfterClear, startCycleState, hg, hq, hp]

/-- Witness for C2 at a concrete environment whose text response is not
valid JSON. -/
theorem C2_witness :
    (handleGenerateCopy envParseFailure stateWithImage).alerts =
      [failAlert { message := some "Unexpected token" }] ∧
    (handleGenerateCopy envParseFailure stateWithImage).state.loading = false ∧
    (handleGenerateCopy envParseFailure stateWithImage).state.title = .str "" := by
  have h := C2_parse_failure_state envParseFailure stateWithImage dataUriExample
      geminiOkExample { content := some "not json" }
      { message := some "Unexpected token" } rfl rfl rfl rfl
  exact ⟨h.2.2.2.2.2.2.2, h.2.2.2.2.2.2.1, h.1⟩

/-- Claim C6: for every description string D returned by the vision
endpoint, the second-stage prompt is the template with D interpolated,
and it contains D verbatim as a substring. -/
theorem C6_prompt_contains_description (env : Env) (s : AppState)
    (img D : String) (gr : GeminiResponse)
    (himg : s.image = some img)
    (hg : env.geminiResult = .ok gr)
    (ht : gr.text = some D) :
    (handleGenerateCopy env s).groqPrompt = some (mkPrompt D) ∧
    strContains (mkPrompt D) D := by
  refine ⟨?_, promptHead, promptTail, rfl⟩
  simp only [handleGenerateCopy, himg, cycleAfterClear, hg, ht, jsInterp]
  cases hq : env.groqResult with
  | error e => simp
  | ok qr =>
    cases hp : env.parseJson (jsTrim (jsOr qr.content "\x7b\x7d")) with
    | error e => simp [hp]
    | ok j =>
      cases hj : jsonFields j with
      | error e => simp [hp, hj]
      | ok v => simp [hp, hj]

/-- Witness for C6 at a concrete environment. -/
theorem C6_witness :
    (handleGenerateCopy envTitleOnly stateWithImage).groqPrompt =
      some (mkPrompt "red running sneaker with white sole") ∧
    strContains (mkPrompt "red running sneaker with white sole")
      "red running sneaker with white sole" :=
  C6_prompt_contains_description envTitleOnly stateWithImage dataUriExample
    "red running sneaker with white sole" geminiOkExample rfl rfl rfl

/-- On the empty parsed object the six property accesses all succeed,
each yielding the undefined value. -/
theorem jsonFields_empty_obj :
    jsonFields (.obj []) = .ok (.undefined, .undefined, .undefined,
      .undefined, .undefined, .undefined) := rfl

/-- Claim C10 as stated is false at its own scenario: with no message
content the cycle itself succeeds (no alert, keywords left undefined),
but the UI does not end with all panels empty — evaluating the SEO
column render guard throws a TypeError at keywords.length on the
undefined keywords state, so the next render crashes instead. -/
theorem C10_counterexample :
    (handleGenerateCopy envEmptyContent stateWithImage).alerts = [] ∧
    (handleGenerateCopy envEmptyContent stateWithImage).state.keywords = .undefined ∧
    seoColumnGuard (handleGenerateCopy envEmptyContent stateWithImage).state =
      .error (typeError "undefined" "length") :=
  ⟨rfl, rfl, rfl⟩

/-- Claim C10 amended: when the text-endpoint response has missing or
empty message content, the empty-object text is substituted, parsing
succeeds, every result field is set to the undefined value, loading is
reset, and no alert is raised; the product-copy column guard is then
falsy (those panels are absent), but the SEO column guard throws a
TypeError at keywords.length on the undefined keywords state, so the
cycle does not terminate with all panels rendered empty — the next
render crashes. -/
theorem C10_empty_content (env : Env) (s : AppState) (img : String)
    (gr : GeminiResponse) (qr : GroqResponse)
    (himg : s.image = some img)
    (hg : env.geminiResult = .ok gr)
    (hq : env.groqResult = .ok qr)
    (hc : qr.content = none ∨ qr.content = some "")
    (hp : env.parseJson "\x7b\x7d" = .ok (.obj [])) :
    (handleGenerateCopy env s).state.title = .undefined ∧
    (handleGenerateCopy env s).state.shortDescription = .undefined ∧
    (handleGenerateCopy env s).state.longDescription = .undefined ∧
    (handleGenerateCopy env s).state.metaTitle = .undefined ∧
    (handleGenerateCopy env s).state.metaDescription = .undefined ∧
    (handleGenerateCopy env s).state.keywords = .undefined ∧
    (handleGenerateCopy env s).state.loading = false ∧
    (handleGenerateCopy env s).alerts = [] ∧
    copyColumnGuard (handleGenerateCopy env s).state = false ∧
    seoColumnGuard (handleGenerateCopy env s).state =
      .error (typeError "undefined" "length") := by
  have hco : jsOr qr.content "\x7b\x7d" = "\x7b\x7d" := by
    rcases hc with h | h <;> rw [h] <;> rfl
  have htrim : jsTrim "\x7b\x7d" = "\x7b\x7d" := rfl
  simp [handleGenerateCopy, himg, cycleAfterClear, startCycleState, hg, hq, hco,
    htrim, hp, jsonFields_empty_obj, copyColumnGuard, seoColumnGuard,
    keywordsLengthGuard, JsVal.truthy]

/-- Witness for the amended C10 at a concrete environment with no message
content. -/
theorem C10_witness :
    (handleGenerateCopy envEmptyContent stateWithImage).state.title = .undefined ∧
    (handleGenerateCopy envEmptyContent stateWithImage).alerts = [] ∧
    seoColumnGuard (handleGenerateCopy envEmptyContent stateWithImage).state =
      .error (typeError "undefined" "length") := by
  have h := C10_empty_content envEmptyContent stateWithImage dataUriExample
      geminiOkExample { content := none } rfl rfl rfl (Or.inl rfl) rfl
  exact ⟨h.1, h.2.2.2.2.2.2.2.1, h.2.2.2.2.2.2.2.2.2⟩

/-- Splitting a character list that does not contain the separator yields
one chunk: the list itself. -/
theorem jsSplitChars_of_not_mem (sep : Char) (l : List Char) (h : sep ∉ l) :
    jsSplitChars sep l = [l] := by
  induction l with
  | nil => rfl
  | cons c cs ih =>
    have hc : ¬ c = sep := fun e => h (e ▸ List.mem_cons_self c cs)
    have hcs : sep ∉ cs := fun m => h (List.mem_cons_of_mem c m)
    simp only [jsSplitChars, if_neg hc, ih hcs]

/-- Splitting at the first separator occurrence: the chunk before it is
emitted and splitting continues on the remainder. -/
theorem jsSplitChars_append (sep : Char) (l₁ l₂ : List Char) (h : sep ∉ l₁) :
    jsSplitChars sep (l₁ ++ sep :: l₂) = l₁ :: jsSplitChars sep l₂ := by
  induction l₁ with
  | nil => simp [jsSplitChars]
  | cons c cs ih =>
    have hc : ¬ c = sep := fun e => h (e ▸ List.mem_cons_self c cs)
    have hcs : sep ∉ cs := fun m => h (List.mem_cons_of_mem c m)
    simp only [List.cons_append, jsSplitChars, if_neg hc, List.append_eq, ih hcs]

/-- On a well-formed data URI the media-type extraction returns exactly
the media type. -/
theorem extractMimeType_data_uri (mt payload : String)
    (hc : ':' ∉ mt.data) (hs : ';' ∉ mt.data) :
    extractMimeType ("data:" ++ mt ++ ";base64," ++ payload) = some mt := by
  have hd1 : ("data:" : String).data = ['d', 'a', 't', 'a', ':'] := rfl
  have hd2 : (";base64," : String).data
      = [';', 'b', 'a', 's', 'e', '6', '4', ','] := rfl
  have hdata : ("data:" ++ mt ++ ";base64," ++ payload).data
      = (['d', 'a', 't', 'a', ':'] ++ mt.data)
        ++ ';' :: (['b', 'a', 's', 'e', '6', '4', ','] ++ payload.data) := by
    rw [String.data_append, String.data_append, String.data_append, hd1, hd2]
    simp
  have hs1 : ';' ∉ ['d', 'a', 't', 'a', ':'] ++ mt.data := by
    intro hmem
    rcases List.mem_append.1 hmem with h | h
    · exact absurd h (by decide)
    · exact hs h
  have hl1 : ['d', 'a', 't', 'a', ':'] ++ mt.data
      = ['d', 'a', 't', 'a'] ++ ':' :: mt.data := by simp
  have hs2 : ':' ∉ (['d', 'a', 't', 'a'] : List Char) := by decide
  have hmt : String.mk mt.data = mt := String.ext rfl
  unfold extractMimeType jsSplit
  rw [hdata, jsSplitChars_append ';' _ _ hs1]
  simp only [List.map_cons, List.get?_cons_zero, Option.getD_some]
  rw [hl1, jsSplitChars_append ':' _ _ hs2, jsSplitChars_of_not_mem ':' _ hc]
  simp [hmt]

/-- On a well-formed data URI the base64 extraction returns exactly the
payload. -/
theorem extractBase64_data_uri (mt payload : String)
    (hm : ',' ∉ mt.data) (hp : ',' ∉ payload.data) :
    extractBase64 ("data:" ++ mt ++ ";base64," ++ payload) = some payload := by
  have hd1 : ("data:" : String).data = ['d', 'a', 't', 'a', ':'] := rfl
  have hd2 : (";base64," : String).data
      = [';', 'b', 'a', 's', 'e', '6', '4', ','] := rfl
  have hdata : ("data:" ++ mt ++ ";base64," ++ payload).data
      = (['d', 'a', 't', 'a', ':'] ++ (mt.data ++ [';', 'b', 'a', 's', 'e', '6', '4']))
        ++ ',' :: payload.data := by
    rw [String.data_append, String.data_append, String.data_append, hd1, hd2]
    simp
  have hc1 : ',' ∉ ['d', 'a', 't', 'a', ':']
      ++ (mt.data ++ [';', 'b', 'a', 's', 'e', '6', '4']) := by
    intro hmem
    rcases List.mem_append.1 hmem with h | h
    · exact absurd h (by decide)
    · rcases List.mem_append.1 h with h | h
      · exact hm h
      · exact absurd h (by decide)
  have hpd : String.mk payload.data = payload := String.ext rfl
  unfold extractBase64 jsSplit
  rw [hdata, jsSplitChars_append ',' _ _ hc1, jsSplitChars_of_not_mem ',' _ hp]
  simp [hpd]

/-- Claim C9: for an encoded image of data-URI form, the handler extracts
exactly the media type and exactly the base64 payload, and the vision
request it issues carries them together with the fixed instruction. -/
theorem C9_data_uri_extraction (env : Env) (s : AppState) (mt payload : String)
    (hc : ':' ∉ mt.data) (hs : ';' ∉ mt.data) (hm : ',' ∉ mt.data)
    (hp : ',' ∉ payload.data)
    (himg : s.image = some ("data:" ++ mt ++ ";base64," ++ payload)) :
    extractMimeType ("data:" ++ mt ++ ";base64," ++ payload) = some mt ∧
    extractBase64 ("data:" ++ mt ++ ";base64," ++ payload) = some payload ∧
    (handleGenerateCopy env s).geminiRequest =
      some { data := some payload, mimeType := some mt
             instruction := geminiInstruction } := by
  have h1 := extractMimeType_data_uri mt payload hc hs
  have h2 := extractBase64_data_uri mt payload hm hp
  refine ⟨h1, h2, ?_⟩
  simp only [handleGenerateCopy, himg, cycleAfterClear]
  cases hg : env.geminiResult with
  | error e => simp [h1, h2]
  | ok gr =>
    cases hq : env.groqResult with
    | error e => simp [h1, h2]
    | ok qr =>
      cases hpj : env.parseJson (jsTrim (jsOr qr.content "\x7b\x7d")) with
      | error e => simp [hpj, h1, h2]
      | ok j =>
        cases hj : jsonFields j with
        | error e => simp [hpj, hj, h1, h2]
        | ok v => simp [hpj, hj, h1, h2]

/-- Witness for C9 at a concrete data URI. -/
theorem C9_witness :
    extractMimeType ("data:" ++ "image/png" ++ ";base64," ++ "AAAA") =
      some "image/png" ∧
    extractBase64 ("data:" ++ "image/png" ++ ";base64," ++ "AAAA") =
      some "AAAA" := by
  have h := C9_data_uri_extraction envTitleOnly stateWithImage "image/png" "AAAA"
      (by decide) (by decide) (by decide) (by decide) rfl
  exact ⟨h.1, h.2.1⟩

end SnapCopy
